import Mathlib

/-!
Shallow embedding of the email-autoresponder core: the rate-limited
request queues (classifier queue from the OpenAI service module, mail
queue from `gmailApi.ts`), the classifier output normalization, the
ignore list, and the batch email-processing pipeline
(`emailProcessor.ts`).  Remote network effects are modelled as explicit
state passing over a `GmailState` plus an event log; the LLM completion
and the per-attempt rate-limit outcomes are parameters.
-/

set_option maxRecDepth 4000

/-- `pat` is a prefix of `s` (character lists). -/
def isPrefixChars : List Char → List Char → Bool
  | [], _ => true
  | _ :: _, [] => false
  | a :: xs, b :: ys => a == b && isPrefixChars xs ys

/-- `pat` occurs as a contiguous run inside `s` (character lists). -/
def isInfixChars (pat : List Char) : List Char → Bool
  | [] => isPrefixChars pat []
  | c :: rest => isPrefixChars pat (c :: rest) || isInfixChars pat rest

/-- JavaScript `a.includes(b)` on strings: `pat` occurs as a contiguous
substring of `s`. -/
def strContains (s pat : String) : Bool :=
  isInfixChars pat.data s.data

/-- JavaScript `toLowerCase()`. -/
def strToLower (s : String) : String :=
  ⟨s.data.map Char.toLower⟩

/-- JavaScript `trim()`: strip leading and trailing whitespace. -/
def strTrim (s : String) : String :=
  ⟨((s.data.dropWhile Char.isWhitespace).reverse.dropWhile
      Char.isWhitespace).reverse⟩

/-! ## Classifier output normalization (`OpenAIService.classifyEmail`) -/

/-- The values of the `EmailCategory` enum. -/
def emailCategoryValues : List String :=
  ["appreciation", "feedback", "support", "pricing", "sales", "spam", "other"]

/-- Lines 155-160 of the OpenAI service module: the raw model completion
(`none` models a missing `message.content`) is lower-cased and trimmed;
a normalized value outside the enum is replaced by `other`. -/
def classifyNormalize (completion : Option String) : String :=
  match completion with
  | none => "other"
  | some s =>
      let category := strTrim (strToLower s)
      if emailCategoryValues.contains category then category else "other"

/-! ## Ignore list (`src/config/ignoreList.ts`) -/

def IGNORED_SENDERS : List String :=
  ["comments-noreply@docs.google.com",
   "calendar-server.bounces.google.com",
   "noreply@google.com",
   "drive-shares-noreply@google.com",
   "meet-recordings-noreply@google.com",
   "calendar-notification@google.com",
   "notifications-noreply@google.com"]

def isIgnoredSender (emailAddress : String) : Bool :=
  let normalizedEmail := strTrim (strToLower emailAddress)
  IGNORED_SENDERS.any (fun ignored => strContains normalizedEmail (strToLower ignored))

/-! ## Rate-limit content sniffing (`EmailProcessor.isRateLimitContent`) -/

def rateLimitTerms : List String :=
  ["rate", "limit", "resource", "exhausted", "resource_exhausted",
   "rate limit", "rate_limit",
   "errorserver encountered error of type: resource_exhausted"]

def isRateLimitContent (content : String) : Bool :=
  let lowerContent := strToLower content
  rateLimitTerms.any (fun term => strContains lowerContent term)

/-! ## Gmail state and label operations (`gmailApi.ts`, modelled with
label ids equal to label names, matching the spec's `labels: set<string>`
data model) -/

structure GMessage where
  id : Nat
  sender : String
  subject : String
  snippet : String
  body : String
  labels : List String
deriving Repr, DecidableEq

structure GmailState where
  messages : List GMessage
  labelNames : List String
deriving Repr, DecidableEq

/-- `gmailApi.createLabel`: creates the label remotely unless it already
exists. -/
def createLabel (gs : GmailState) (name : String) : GmailState :=
  if gs.labelNames.contains name then gs
  else { gs with labelNames := gs.labelNames ++ [name] }

def addLabelToMsg (m : GMessage) (name : String) : GMessage :=
  if m.labels.contains name then m
  else { m with labels := m.labels ++ [name] }

/-- `gmailApi.addLabel`: ensures the label exists, then adds it to the
message (adding an already-present label is a no-op). -/
def addLabel (gs : GmailState) (msgId : Nat) (name : String) : GmailState :=
  let gs1 := createLabel gs name
  { gs1 with
    messages := gs1.messages.map
      (fun m => if m.id = msgId then addLabelToMsg m name else m) }

/-- `gmailApi.getEmails`: the messages-list request carries
`maxResults: 50` and the pipeline never passes a page token, so at most
the first 50 messages of the mailbox are returned. -/
def getEmails (gs : GmailState) : List GMessage :=
  gs.messages.take 50

/-- One observable network side effect of the pipeline. -/
inductive CallEvent where
  | classifyCall (content : String)
  | createLabelCall (label : String)
  | addLabelCall (msgId : Nat) (label : String)
deriving Repr, DecidableEq

def CallEvent.isClassify : CallEvent → Bool
  | .classifyCall _ => true
  | _ => false

/-! ## Per-message processing (`EmailProcessor.processEmail`) -/

/-- `EmailProcessor.processEmail`.  The classifier is a parameter
`clf : String → Except String EmailCategory-name`; a thrown error is the
`Except.error` carrying `error.message`.  Returns the outcome, the
updated remote state, and the list of network calls issued. -/
def processEmail (gs : GmailState) (email : GMessage)
    (clf : String → Except String String) :
    Except String Unit × GmailState × List CallEvent :=
  if email.labels.contains "Processed" || email.labels.contains "RateLimit" then
    (Except.ok (), gs, [])
  else
    let emailContent := email.subject ++ "\n" ++ email.snippet ++ "\n" ++ email.body
    if isRateLimitContent emailContent then
      let gs1 := addLabel gs email.id "RateLimit"
      let gs2 := addLabel gs1 email.id "Processed"
      (Except.ok (), gs2,
       [CallEvent.addLabelCall email.id "RateLimit",
        CallEvent.addLabelCall email.id "Processed"])
    else
      match clf emailContent with
      | Except.ok category =>
          let gs1 := createLabel gs category
          let gs2 := addLabel gs1 email.id category
          let gs3 := addLabel gs2 email.id "Processed"
          (Except.ok (), gs3,
           [CallEvent.classifyCall emailContent,
            CallEvent.createLabelCall category,
            CallEvent.addLabelCall email.id category,
            CallEvent.addLabelCall email.id "Processed"])
      | Except.error e =>
          if isRateLimitContent e then
            let gs1 := addLabel gs email.id "RateLimit"
            let gs2 := addLabel gs1 email.id "Processed"
            (Except.error e, gs2,
             [CallEvent.classifyCall emailContent,
              CallEvent.addLabelCall email.id "RateLimit",
              CallEvent.addLabelCall email.id "Processed"])
          else
            (Except.error e, gs, [CallEvent.classifyCall emailContent])

/-! ## Batch processing (`EmailProcessor.processNewEmails`) -/

structure ProcState where
  isProcessing : Bool
  currentPage : Nat
  hasMoreEmails : Bool
deriving Repr, DecidableEq

def initProcState : ProcState :=
  { isProcessing := false, currentPage := 0, hasMoreEmails := true }

def batchSize : Nat := 30

/-- The `for ... of currentBatch` loop of `processNewEmails`.
`stopFlag = some k` models `stopProcessing()` being invoked while the
`k`-th message is being awaited, so the `!this.isProcessing` check fires
before iteration `k` (0-based count of completed iterations);
`none` means the flag is never cleared. -/
def processBatch (clf : String → Except String String) :
    List GMessage → GmailState → Option Nat →
    Except String Unit × GmailState × List CallEvent
  | [], gs, _ => (Except.ok (), gs, [])
  | _ :: _, gs, some 0 => (Except.ok (), gs, [])
  | email :: rest, gs, stopFlag =>
      let step := processEmail gs email clf
      match step.1 with
      | Except.error err => (Except.error err, step.2.1, step.2.2)
      | Except.ok _ =>
          let stopFlag1 := match stopFlag with
            | some (k + 1) => some k
            | other => other
          let restRun := processBatch clf rest step.2.1 stopFlag1
          (restRun.1, restRun.2.1, step.2.2 ++ restRun.2.2)

/-- `EmailProcessor.processNewEmails`: re-entry guard, `Processed` label
creation, fetch, filter of already-processed messages, page slice,
per-message loop with the stop check, pagination advance, and the
`finally` block that clears `isProcessing` on every exit path. -/
def processNewEmails (ps : ProcState) (gs : GmailState)
    (clf : String → Except String String) (stopFlag : Option Nat) :
    Except String (Nat × Bool) × ProcState × GmailState × List CallEvent :=
  if ps.isProcessing then
    (Except.ok (0, false), { ps with isProcessing := false }, gs, [])
  else
    let gs0 := createLabel gs "Processed"
    let unprocessedEmails := (getEmails gs0).filter
      (fun e => !(e.labels.contains "Processed") && !(e.labels.contains "RateLimit"))
    let startIndex := ps.currentPage * batchSize
    let currentBatch := (unprocessedEmails.drop startIndex).take batchSize
    let hasMore := decide (startIndex + batchSize < unprocessedEmails.length)
    let run := processBatch clf currentBatch gs0 stopFlag
    match run.1 with
    | Except.ok _ =>
        (Except.ok (currentBatch.length, hasMore),
         { isProcessing := false, currentPage := ps.currentPage + 1,
           hasMoreEmails := hasMore },
         run.2.1, CallEvent.createLabelCall "Processed" :: run.2.2)
    | Except.error e =>
        (Except.error e,
         { isProcessing := false, currentPage := ps.currentPage,
           hasMoreEmails := hasMore },
         run.2.1, CallEvent.createLabelCall "Processed" :: run.2.2)

/-- The dashboard component's page filter (the unnamed dashboard source
file, lines 141-156): drops already-processed messages and messages from
ignore-list senders before its own processing loop. -/
def dashboardFilter (emails : List GMessage) : List GMessage :=
  emails.filter (fun e =>
    !(e.labels.contains "Processed") && !(e.labels.contains "RateLimit") &&
    !(isIgnoredSender e.sender))

/-! ## The classifier request queue (`RequestQueue` in the OpenAI
service module).  A queued operation is identified by a `Nat` id and
carries its `retryCount`; `beh op rc` is the outcome of attempting
operation `op` with retry counter `rc`. -/

inductive AttemptResult where
  | success
  | rateLimited
  | failure
deriving Repr, DecidableEq

/-- Dispatch trace of `RequestQueue.processQueue` draining the queue:
each element is the id of an operation at the instant it is attempted.
On a 429 with `retryCount < maxRetries` the operation is reinserted at
the FRONT with the counter incremented; otherwise its promise settles
and the queue moves on. -/
def runQueueTrace (beh : Nat → Nat → AttemptResult) (maxRetries : Nat) :
    List (Nat × Nat) → List Nat
  | [] => []
  | (op, rc) :: rest =>
      match beh op rc with
      | .success => op :: runQueueTrace beh maxRetries rest
      | .failure => op :: runQueueTrace beh maxRetries rest
      | .rateLimited =>
          if h : rc < maxRetries then
            op :: runQueueTrace beh maxRetries ((op, rc + 1) :: rest)
          else
            op :: runQueueTrace beh maxRetries rest
termination_by q => (q.map (fun p => maxRetries + 1 - p.2)).sum + q.length
decreasing_by
  all_goals simp [List.map_cons, List.sum_cons]
  all_goals omega

/-- Settlement order of `RequestQueue.processQueue`: for each operation,
`true` when its promise resolves and `false` when it rejects. -/
def runQueueResults (beh : Nat → Nat → AttemptResult) (maxRetries : Nat) :
    List (Nat × Nat) → List (Nat × Bool)
  | [] => []
  | (op, rc) :: rest =>
      match beh op rc with
      | .success => (op, true) :: runQueueResults beh maxRetries rest
      | .failure => (op, false) :: runQueueResults beh maxRetries rest
      | .rateLimited =>
          if h : rc < maxRetries then
            runQueueResults beh maxRetries ((op, rc + 1) :: rest)
          else
            (op, false) :: runQueueResults beh maxRetries rest
termination_by q => (q.map (fun p => maxRetries + 1 - p.2)).sum + q.length
decreasing_by
  all_goals simp [List.map_cons, List.sum_cons]
  all_goals omega

/-- `maxRetries` of the classifier `RequestQueue`. -/
def classifierMaxRetries : Nat := 2

/-! ## The mail-side queue (`RateLimiter` + `makeRequest` in
`gmailApi.ts`).  The `RateLimiter` itself never retries; `makeRequest`
wraps each logical operation in a `while (retries < MAX_RETRIES)` loop
that, on a 429, increments `retries` and re-enqueues a fresh attempt at
the BACK of the queue (via `addToQueue`) while `retries < MAX_RETRIES`
still holds; otherwise the error is thrown.  `beh op r = true` means
attempt `r` of operation `op` receives a 429. -/

def MAX_RETRIES : Nat := 3

def gmailRunTrace (beh : Nat → Nat → Bool) :
    List (Nat × Nat) → List Nat
  | [] => []
  | (op, r) :: rest =>
      if beh op r then
        if h : r + 1 < MAX_RETRIES then
          op :: gmailRunTrace beh (rest ++ [(op, r + 1)])
        else
          op :: gmailRunTrace beh rest
      else
        op :: gmailRunTrace beh rest
termination_by q => (q.map (fun p => MAX_RETRIES - p.2)).sum + q.length
decreasing_by
  all_goals simp [List.map_cons, List.sum_cons, List.map_append, List.sum_append]
  all_goals simp [MAX_RETRIES] at *
  all_goals omega

def gmailRunResults (beh : Nat → Nat → Bool) :
    List (Nat × Nat) → List (Nat × Bool)
  | [] => []
  | (op, r) :: rest =>
      if beh op r then
        if h : r + 1 < MAX_RETRIES then
          gmailRunResults beh (rest ++ [(op, r + 1)])
        else
          (op, false) :: gmailRunResults beh rest
      else
        (op, true) :: gmailRunResults beh rest
termination_by q => (q.map (fun p => MAX_RETRIES - p.2)).sum + q.length
decreasing_by
  all_goals simp [List.map_cons, List.sum_cons, List.map_append, List.sum_append]
  all_goals simp [MAX_RETRIES] at *
  all_goals omega

/-! ## Retry backoff delay of the classifier queue
(`RequestQueue.processQueue`, catch branch).  The retry-after header is
modelled as `none` when absent, `some none` when present but
non-numeric (`parseInt` yields NaN), and `some (some n)` when it parses
to the number `n`.  The code computes
`retryAfter = parseInt(headers[...] || '60')` and sleeps
`(retryAfter * 1000) || delay` milliseconds, where `delay` is the
exponential backoff `min(baseDelay * 2^retryCount, maxDelay)`. -/

def baseDelay : Nat := 500
def maxDelay : Nat := 5000

def retrySleepMs (header : Option (Option Nat)) (retryCount : Nat) : Nat :=
  let delay := min (baseDelay * 2 ^ retryCount) maxDelay
  let retryAfter : Option Nat :=
    match header with
    | none => some 60
    | some (some n) => some n
    | some none => none
  match retryAfter with
  | some n => if n * 1000 ≠ 0 then n * 1000 else delay
  | none => delay

/-! ## Concrete scenario inputs -/

instance {ε α : Type} [DecidableEq ε] [DecidableEq α] :
    DecidableEq (Except ε α) := fun x y =>
  match x, y with
  | .ok a, .ok b =>
      if h : a = b then isTrue (by simp [h]) else isFalse (by simp [h])
  | .ok _, .error _ => isFalse (by simp)
  | .error _, .ok _ => isFalse (by simp)
  | .error e, .error f =>
      if h : e = f then isTrue (by simp [h]) else isFalse (by simp [h])

/-- A fresh unprocessed message from a non-ignored sender whose content
contains none of the rate-limit indicator terms. -/
def mkMsg (i : Nat) : GMessage :=
  { id := i, sender := "alice@example.com", subject := "m", snippet := "",
    body := "", labels := [] }

/-- A classifier that always answers `support`. -/
def clfSupport : String → Except String String := fun _ => Except.ok "support"

/-- A mailbox of 65 unprocessed, non-ignored messages. -/
def mailbox65 : GmailState :=
  { messages := (List.range 65).map mkMsg, labelNames := [] }

def c2run1 := processNewEmails initProcState mailbox65 clfSupport none
def c2run2 := processNewEmails c2run1.2.1 c2run1.2.2.1 clfSupport none
def c2run3 := processNewEmails c2run2.2.1 c2run2.2.2.1 clfSupport none

/-- A mailbox of 30 unprocessed, non-ignored messages. -/
def mailbox30 : GmailState :=
  { messages := (List.range 30).map mkMsg, labelNames := [] }

/-- One batch over `mailbox30` during which `stopProcessing()` is called
while the 10th message is being awaited. -/
def c9run := processNewEmails initProcState mailbox30 clfSupport (some 10)

/-- A message from an ignore-list sender. -/
def ignoredMsg : GMessage :=
  { id := 0, sender := "noreply@google.com", subject := "m", snippet := "",
    body := "", labels := [] }

def mailboxIgn : GmailState := { messages := [ignoredMsg], labelNames := [] }

def c5run := processNewEmails initProcState mailboxIgn clfSupport none

/-- An unprocessed message whose content has no rate-limit term. -/
def plainMsg : GMessage :=
  { id := 7, sender := "bob@example.com", subject := "hello", snippet := "",
    body := "", labels := [] }

def gsPlain : GmailState := { messages := [plainMsg], labelNames := [] }

/-- A classifier whose call rejects with a 429-style error message. -/
def clfRateErr : String → Except String String :=
  fun _ => Except.error "Request failed with status code 429: rate limit exceeded"

/-- Queue behavior: operation 0 is rate-limited on its first attempt
only; everything else succeeds. -/
def behFailOnceQ : Nat → Nat → AttemptResult :=
  fun op rc => if op == 0 && rc == 0 then .rateLimited else .success

/-- Mail-side behavior: operation 0 receives a 429 on attempt 0 only. -/
def behFailOnceG : Nat → Nat → Bool := fun op r => op == 0 && r == 0

/-- Queue behavior: every attempt of every operation is rate-limited. -/
def behAlwaysFailQ : Nat → Nat → AttemptResult := fun _ _ => .rateLimited

def behAlwaysFailG : Nat → Nat → Bool := fun _ _ => true

/-! ## Helper lemmas -/

/-- Draining the classifier queue seeded with a single operation that is
rate-limited on every attempt: starting from retry counter `rc` with
`k` retries left, the operation is attempted `k + 1` more times. -/
theorem runQueueTrace_alwaysFail (beh : Nat → Nat → AttemptResult)
    (op maxR : Nat) (hfail : ∀ rc, beh op rc = .rateLimited) :
    ∀ k rc, rc + k = maxR →
      runQueueTrace beh maxR [(op, rc)] = List.replicate (k + 1) op := by
  intro k
  induction k with
  | zero =>
      intro rc hrc
      rw [runQueueTrace, hfail]
      rw [dif_neg (by omega)]
      rw [runQueueTrace]
      simp
  | succ n ih =>
      intro rc hrc
      rw [runQueueTrace, hfail]
      rw [dif_pos (by omega)]
      rw [ih (rc + 1) (by omega)]
      simp [List.replicate_succ]

/-- As `runQueueTrace_alwaysFail`, for the settlement list: the single
always-rate-limited operation ends by rejecting. -/
theorem runQueueResults_alwaysFail (beh : Nat → Nat → AttemptResult)
    (op maxR : Nat) (hfail : ∀ rc, beh op rc = .rateLimited) :
    ∀ k rc, rc + k = maxR →
      runQueueResults beh maxR [(op, rc)] = [(op, false)] := by
  intro k
  induction k with
  | zero =>
      intro rc hrc
      rw [runQueueResults, hfail]
      rw [dif_neg (by omega)]
      rw [runQueueResults]
  | succ n ih =>
      intro rc hrc
      rw [runQueueResults, hfail]
      rw [dif_pos (by omega)]
      exact ih (rc + 1) (by omega)

/-- The mail-side queue attempts a single always-429 operation exactly
three times (`MAX_RETRIES`). -/
theorem gmailRunTrace_alwaysFail (beh : Nat → Nat → Bool) (op : Nat)
    (hfail : ∀ r, beh op r = true) :
    gmailRunTrace beh [(op, 0)] = [op, op, op] := by
  simp [gmailRunTrace, hfail, MAX_RETRIES]

/-- The mail-side queue rejects a single always-429 operation. -/
theorem gmailRunResults_alwaysFail (beh : Nat → Nat → Bool) (op : Nat)
    (hfail : ∀ r, beh op r = true) :
    gmailRunResults beh [(op, 0)] = [(op, false)] := by
  simp [gmailRunResults, hfail, MAX_RETRIES]

/-! ## Claim C1 -/

/-- Claim C1, counterexample.  The mail-side queue (`RateLimiter` +
`makeRequest` in `gmailApi.ts`) does NOT reinsert a retried operation at
the front: `makeRequest` re-enqueues the retry at the back of the queue,
so for operations A=0, B=1, C=2 enqueued in that order with A receiving
a 429 on its first attempt only, the dispatch order is A, B, C, A — B
and C run before A's second attempt, contradicting the claim's
"never B or C before A's second attempt" for every queue instance. -/
theorem claim1_counterexample :
    gmailRunTrace behFailOnceG [(0, 0), (1, 0), (2, 0)] = [0, 1, 2, 0] ∧
    ([0, 1, 2, 0] : List Nat) ≠ [0, 0, 1, 2] := by
  constructor
  · rw [gmailRunTrace]
    norm_num [behFailOnceG, MAX_RETRIES]
    rw [gmailRunTrace]
    norm_num [behFailOnceG]
    rw [gmailRunTrace]
    norm_num [behFailOnceG]
    rw [gmailRunTrace]
    norm_num [behFailOnceG, MAX_RETRIES]
    rw [gmailRunTrace]
  · decide

/-- Claim C1, amended: the two queues order retries differently.  The
classifier `RequestQueue` reinserts a retried operation at the front, so
for A, B, C with A rate-limited once the dispatch order is A, A, B, C;
the mail-side queue re-enqueues the retry at the back (in `makeRequest`)
and dispatches A, B, C, A. -/
theorem claim1_amended (a b c : Nat)
    (beh : Nat → Nat → AttemptResult) (gbeh : Nat → Nat → Bool)
    (ha0 : beh a 0 = .rateLimited) (ha1 : beh a 1 = .success)
    (hb : beh b 0 = .success) (hc : beh c 0 = .success)
    (ga0 : gbeh a 0 = true) (ga1 : gbeh a 1 = false)
    (gb : gbeh b 0 = false) (gc : gbeh c 0 = false) :
    runQueueTrace beh classifierMaxRetries [(a, 0), (b, 0), (c, 0)] =
      [a, a, b, c] ∧
    gmailRunTrace gbeh [(a, 0), (b, 0), (c, 0)] = [a, b, c, a] := by
  constructor
  · rw [runQueueTrace, ha0]
    simp only [classifierMaxRetries]
    rw [dif_pos (by omega)]
    rw [runQueueTrace, ha1]
    rw [runQueueTrace, hb]
    rw [runQueueTrace, hc]
    rw [runQueueTrace]
  · simp [gmailRunTrace, ga0, ga1, gb, gc, MAX_RETRIES]

/-- Claim C1, witness for `claim1_amended` at concrete behaviors. -/
theorem claim1_witness :
    runQueueTrace behFailOnceQ classifierMaxRetries
      [(0, 0), (1, 0), (2, 0)] = [0, 0, 1, 2] ∧
    gmailRunTrace behFailOnceG [(0, 0), (1, 0), (2, 0)] = [0, 1, 2, 0] :=
  claim1_amended 0 1 2 behFailOnceQ behFailOnceG
    rfl rfl rfl rfl rfl rfl rfl rfl

/-! ## Claim C2 -/

/-- Claim C2, counterexample.  `mailbox65` holds exactly 65 unprocessed,
non-ignored messages, yet the second `processNewEmails` call returns
`{processedCount := 0, hasMore := false}`, not `{30, true}` as the claim
requires: `getEmails` only ever fetches the first page of 50 messages,
and the messages processed by the first call are filtered out again
before the persistent page offset `currentPage * batchSize` is applied,
so the offset of 30 overshoots the 20 remaining unprocessed messages. -/
theorem claim2_counterexample :
    mailbox65.messages.length = 65 ∧
    mailbox65.messages.all
      (fun m => !(m.labels.contains "Processed") &&
                !(m.labels.contains "RateLimit") &&
                !(isIgnoredSender m.sender)) = true ∧
    c2run2.1 = Except.ok (0, false) ∧
    ((0 : Nat), false) ≠ ((30 : Nat), true) := by
  refine ⟨by decide, by decide, by decide, by decide⟩

/-- Claim C2, amended: given 65 unprocessed, non-ignored messages and
`batchSize = 30`, three successive `processNewEmails` calls return
processedCount values 30, 0, 0 with hasMore = true, false, false — the
first call processes the first 30 of the 50 fetched messages; afterwards
the already-processed messages are refiltered away while the page offset
keeps advancing, so no further message is ever processed. -/
theorem claim2_amended :
    c2run1.1 = Except.ok (30, true) ∧
    c2run2.1 = Except.ok (0, false) ∧
    c2run3.1 = Except.ok (0, false) := by
  refine ⟨by decide, by decide, by decide⟩

/-! ## Claim C3 -/

/-- Claim C3, counterexample.  The classifier rejects with an error
whose text matches the rate-limit indicator set, yet `processEmail`
still propagates the error (the `throw error` in its catch block is
unconditional): the claim's "returns normally instead of propagating
the error" is false. -/
theorem claim3_counterexample :
    isRateLimitContent
      "Request failed with status code 429: rate limit exceeded" = true ∧
    (processEmail gsPlain plainMsg clfRateErr).1 =
      Except.error "Request failed with status code 429: rate limit exceeded" := by
  refine ⟨by decide, by decide⟩

/-- Claim C3, amended: when classification throws and the error text
matches the rate-limit indicator substring set, `processEmail` applies
the RateLimit and Processed labels and then still propagates the error
to the caller; it does not return normally. -/
theorem claim3_amended (gs : GmailState) (email : GMessage)
    (clf : String → Except String String) (e : String)
    (hp : email.labels.contains "Processed" = false)
    (hr : email.labels.contains "RateLimit" = false)
    (hcontent : isRateLimitContent
      (email.subject ++ "\n" ++ email.snippet ++ "\n" ++ email.body) = false)
    (hclf : clf (email.subject ++ "\n" ++ email.snippet ++ "\n" ++ email.body) =
      Except.error e)
    (herr : isRateLimitContent e = true) :
    processEmail gs email clf =
      (Except.error e,
       addLabel (addLabel gs email.id "RateLimit") email.id "Processed",
       [CallEvent.classifyCall
          (email.subject ++ "\n" ++ email.snippet ++ "\n" ++ email.body),
        CallEvent.addLabelCall email.id "RateLimit",
        CallEvent.addLabelCall email.id "Processed"]) := by
  unfold processEmail
  simp [hp, hr, hcontent, hclf, herr]
  exact ⟨by simpa using hp, by simpa using hr⟩

/-- Claim C3, witness for `claim3_amended` at a concrete message and
classifier. -/
theorem claim3_witness :
    processEmail gsPlain plainMsg clfRateErr =
      (Except.error "Request failed with status code 429: rate limit exceeded",
       addLabel (addLabel gsPlain plainMsg.id "RateLimit")
         plainMsg.id "Processed",
       [CallEvent.classifyCall "hello\n\n",
        CallEvent.addLabelCall plainMsg.id "RateLimit",
        CallEvent.addLabelCall plainMsg.id "Processed"]) :=
  claim3_amended gsPlain plainMsg clfRateErr
    "Request failed with status code 429: rate limit exceeded"
    (by decide) (by decide) (by decide) rfl (by decide)

/-! ## Claim C4 -/

/-- Claim C4, confirmed: `processEmail` on a message already carrying
the Processed label performs no network call, leaves the remote state
unchanged, and returns without error. -/
theorem claim4_idempotent (gs : GmailState) (email : GMessage)
    (clf : String → Except String String)
    (h : email.labels.contains "Processed" = true) :
    processEmail gs email clf = (Except.ok (), gs, []) := by
  have hmem : "Processed" ∈ email.labels := by simpa using h
  unfold processEmail
  simp [hmem]

/-- Claim C4, witness for `claim4_idempotent` at a concrete
already-processed message. -/
theorem claim4_witness :
    ({ plainMsg with labels := ["Processed"] } : GMessage).labels.contains
      "Processed" = true ∧
    processEmail gsPlain { plainMsg with labels := ["Processed"] } clfSupport =
      (Except.ok (), gsPlain, []) :=
  ⟨by decide,
   claim4_idempotent gsPlain { plainMsg with labels := ["Processed"] }
     clfSupport (by decide)⟩

/-! ## Claim C5 -/

/-- Claim C5, counterexample.  `processNewEmails` performs no
ignore-list filtering: a fresh message from `noreply@google.com` (an
ignore-list sender) IS passed to the classifier during the batch run,
and it ends up labeled `{support, Processed}` — there is no `Ignored`
label anywhere. -/
theorem claim5_counterexample :
    isIgnoredSender "noreply@google.com" = true ∧
    c5run.2.2.2.any CallEvent.isClassify = true ∧
    c5run.2.2.1.messages =
      [{ ignoredMsg with labels := ["support", "Processed"] }] ∧
    (["support", "Processed"] : List String).contains "Ignored" = false := by
  refine ⟨by decide, by decide, by decide, by decide⟩

/-- Claim C5, amended: the ignore list is consulted only by the
dashboard component's own page loop, whose filter skips every
ignore-list sender entirely (no label of any kind is applied there);
the batch entry point `processNewEmails` performs no ignore-list
filtering, so an unprocessed message from an ignore-list sender is
classified like any other and ends up labeled `{category, Processed}`,
never `{Processed, Ignored}`. -/
theorem claim5_amended :
    (∀ emails : List GMessage,
      (dashboardFilter emails).all
        (fun e => !(isIgnoredSender e.sender)) = true) ∧
    c5run.2.2.2.any CallEvent.isClassify = true ∧
    c5run.2.2.1.messages =
      [{ ignoredMsg with labels := ["support", "Processed"] }] := by
  refine ⟨?_, by decide, by decide⟩
  intro emails
  rw [List.all_eq_true]
  intro e he
  rw [dashboardFilter] at he
  have hp := List.of_mem_filter he
  simp only [Bool.and_eq_true] at hp
  exact hp.2

/-! ## Claim C6 -/

/-- Claim C6, counterexample.  An operation that receives a 429 on every
attempt is attempted only `MAX_RETRIES` (= 3) times by the mail-side
queue (`makeRequest` in `gmailApi.ts`), not `MAX_RETRIES + 1` times as
the claim requires of every queue. -/
theorem claim6_counterexample :
    gmailRunTrace behAlwaysFailG [(0, 0)] = [0, 0, 0] ∧
    gmailRunResults behAlwaysFailG [(0, 0)] = [(0, false)] ∧
    ([0, 0, 0] : List Nat).length ≠ MAX_RETRIES + 1 := by
  refine ⟨?_, ?_, by decide⟩
  · exact gmailRunTrace_alwaysFail behAlwaysFailG 0 (fun _ => rfl)
  · exact gmailRunResults_alwaysFail behAlwaysFailG 0 (fun _ => rfl)

/-- Claim C6, amended: an operation that is rate-limited on every
attempt is attempted exactly `maxRetries + 1` times and then rejected by
the classifier `RequestQueue`, but only exactly `MAX_RETRIES` (= 3)
times — not `MAX_RETRIES + 1` — by the mail-side `makeRequest` retry
loop, which then throws. -/
theorem claim6_amended (maxR op gop : Nat)
    (beh : Nat → Nat → AttemptResult) (gbeh : Nat → Nat → Bool)
    (hfail : ∀ rc, beh op rc = .rateLimited)
    (hgfail : ∀ r, gbeh gop r = true) :
    runQueueTrace beh maxR [(op, 0)] = List.replicate (maxR + 1) op ∧
    runQueueResults beh maxR [(op, 0)] = [(op, false)] ∧
    gmailRunTrace gbeh [(gop, 0)] = List.replicate MAX_RETRIES gop ∧
    gmailRunResults gbeh [(gop, 0)] = [(gop, false)] := by
  refine ⟨?_, ?_, ?_, ?_⟩
  · exact runQueueTrace_alwaysFail beh op maxR hfail maxR 0 (by omega)
  · exact runQueueResults_alwaysFail beh op maxR hfail maxR 0 (by omega)
  · rw [show List.replicate MAX_RETRIES gop = [gop, gop, gop] from rfl]
    exact gmailRunTrace_alwaysFail gbeh gop hgfail
  · exact gmailRunResults_alwaysFail gbeh gop hgfail

/-- Claim C6, witness for `claim6_amended` at concrete operations and
behaviors. -/
theorem claim6_witness :
    runQueueTrace behAlwaysFailQ 2 [(5, 0)] = List.replicate (2 + 1) 5 ∧
    runQueueResults behAlwaysFailQ 2 [(5, 0)] = [(5, false)] ∧
    gmailRunTrace behAlwaysFailG [(7, 0)] = List.replicate MAX_RETRIES 7 ∧
    gmailRunResults behAlwaysFailG [(7, 0)] = [(7, false)] :=
  claim6_amended 2 5 7 behAlwaysFailQ behAlwaysFailG
    (fun _ => rfl) (fun _ => rfl)

/-! ## Claim C7 -/

/-- Claim C7, counterexample.  When no retry-after header is present the
classifier queue does NOT sleep the exponential-backoff value: it
defaults the parsed header to 60 (`parseInt(... || '60')`) and sleeps
60000 ms, whereas the claim's backoff for `retryCount = 0` is
`min(baseDelay * 2^0, maxDelay) = 500` ms. -/
theorem claim7_counterexample :
    retrySleepMs none 0 = 60000 ∧
    min (baseDelay * 2 ^ 0) maxDelay = 500 ∧
    (60000 : Nat) ≠ 500 := by decide

/-- Claim C7, amended: on a rate-limit failure the classifier queue
sleeps the server-supplied retry-after value times 1000 ms when the
header parses to a nonzero number; it sleeps the exponential-backoff
value `min(baseDelay * 2^retryCount, maxDelay)` only when the parsed
retry-after value is 0 or not a number; and when the header is absent it
sleeps 60000 ms (the `'60'` default), not the backoff value. -/
theorem claim7_amended (rc n : Nat) :
    retrySleepMs none rc = 60000 ∧
    retrySleepMs (some none) rc = min (baseDelay * 2 ^ rc) maxDelay ∧
    retrySleepMs (some (some 0)) rc = min (baseDelay * 2 ^ rc) maxDelay ∧
    (0 < n → retrySleepMs (some (some n)) rc = n * 1000) := by
  refine ⟨by simp [retrySleepMs], rfl, by simp [retrySleepMs], ?_⟩
  intro h
  simp [retrySleepMs]
  omega

/-- Claim C7, witness for `claim7_amended` at a concrete header value
and retry count. -/
theorem claim7_witness :
    0 < 2 ∧ retrySleepMs (some (some 2)) 0 = 2 * 1000 :=
  ⟨by decide, (claim7_amended 0 2).2.2.2 (by decide)⟩

/-! ## Claim C8 -/

/-- Claim C8, confirmed: for every possible model completion (including
a missing `message.content`, modelled as `none`), the classifier's
output normalization returns a member of the closed category
enumeration: the raw output is lower-cased and trimmed, and any
normalized value outside the enumeration maps to `other` rather than
raising an error. -/
theorem claim8_category_closure (completion : Option String) :
    emailCategoryValues.contains (classifyNormalize completion) = true := by
  cases completion with
  | none => decide
  | some s =>
      simp only [classifyNormalize]
      split
      · rename_i hc
        simpa using hc
      · decide

/-! ## Claim C9 -/

/-- Claim C9, counterexample.  With a batch of 30 messages and the stop
flag cleared while the 10th message is in flight, the loop does stop
after 10 messages (exactly 10 end up labeled Processed), but the call
returns `processedCount = 30` — the full `currentBatch.length` — not
the number of messages actually attempted. -/
theorem claim9_counterexample :
    c9run.1 = Except.ok (30, false) ∧
    (c9run.2.2.1.messages.filter
      (fun m => m.labels.contains "Processed")).length = 10 ∧
    (30 : Nat) ≠ 10 := by
  refine ⟨by decide, by decide, by decide⟩

/-- Claim C9, amended: when the stop request takes effect after 10 of
the 30 messages of the current batch have been processed, the batch
call still returns `processedCount = 30` (the full batch length, not
the 10 actually attempted); the remaining 20 messages are left without
the Processed label. -/
theorem claim9_amended :
    c9run.1 = Except.ok (30, false) ∧
    (c9run.2.2.1.messages.filter
      (fun m => m.labels.contains "Processed")).length = 10 ∧
    (c9run.2.2.1.messages.filter
      (fun m => !(m.labels.contains "Processed"))).length = 20 := by
  refine ⟨by decide, by decide, by decide⟩

/-! ## Claim C10 -/

/-- Claim C10, confirmed: `processNewEmails` leaves the pipeline in the
non-processing state on every exit path — the re-entry fail-fast return,
a completed or stopped batch, and an aborting classification error all
end with `isProcessing = false` (the `finally` block), so a subsequent
batch call is never permanently blocked. -/
theorem claim10_isProcessing_false (ps : ProcState) (gs : GmailState)
    (clf : String → Except String String) (stopFlag : Option Nat) :
    (processNewEmails ps gs clf stopFlag).2.1.isProcessing = false := by
  unfold processNewEmails
  by_cases h : ps.isProcessing = true <;> simp [h]
  split <;> rfl

/-- Claim C5, witness for the universally quantified conjunct of
`claim5_amended` at a concrete message list. -/
theorem claim5_witness :
    (dashboardFilter [ignoredMsg]).all
      (fun e => !(isIgnoredSender e.sender)) = true :=
  claim5_amended.1 [ignoredMsg]

/-- Claim C8, witness for `claim8_category_closure` at a malformed
model completion. -/
theorem claim8_witness :
    emailCategoryValues.contains
      (classifyNormalize (some "I do not know")) = true :=
  claim8_category_closure (some "I do not know")

/-- Claim C10, witness for `claim10_isProcessing_false` at concrete
pipeline inputs. -/
theorem claim10_witness :
    (processNewEmails initProcState mailboxIgn clfSupport none).2.1.isProcessing
      = false :=
  claim10_isProcessing_false initProcState mailboxIgn clfSupport none
